import Mathlib

/-!
Verification of the request/response translation and session-continuity layer
of an OpenAI-compatible shim over a command-line AI backend.

The Python source is embedded shallowly:
* `src/models/openai.py` supplies the message data model,
* `src/claude_interface.py` supplies input translation
  (`_format_messages_as_json`, `_convert_content_to_claude_format`,
  `_extract_base64_from_data_url`) and the aggregate event interpreter
  (`complete_chat`),
* `src/routes/openai.py` supplies the request handlers
  (`complete_chat_with_session`, `stream_chat_completion_with_session`),
* `src/database.py` supplies the session row state that
  `set_claude_session_id` / `add_message` mutate.

Subprocess behaviour is an oracle (`ProcOutcome`): exit code, the parsed
line-delimited JSON events of stdout, stderr text, and elapsed wall-clock
seconds.  Remote image fetching is an oracle function (`Fetch`).  JSON
dictionaries coming from the backend are embedded as records of optional
fields, mirroring Python's `dict.get` defaults; Python truthiness of an
optional string (`None` and `""` are falsy) is `pyTruthy`.
-/

namespace ClaudeCodeApi

/-- Message roles, from `Role` in `src/models/openai.py`. -/
inductive Role
  | system
  | user
  | assistant
  deriving DecidableEq

/-- One item of a structured message content list: `ContentText` or
`ContentImageUrl` (its `image_url["url"]` string) in `src/models/openai.py`. -/
inductive ContentItem
  | text (t : String)
  | image_url (url : String)
  deriving DecidableEq

/-- A message's content: a plain string or a list of content items
(`Union[str, List[ContentItem]]` in `src/models/openai.py`). -/
inductive MsgContent
  | str (s : String)
  | parts (items : List ContentItem)
  deriving DecidableEq

/-- `ChatMessage` from `src/models/openai.py` (the optional `name` field is
never read by the translation layer and is omitted). -/
structure ChatMessage where
  role : Role
  content : MsgContent
  deriving DecidableEq

/-- One content block of a backend `assistant` event's `message.content`,
as read by the streaming loop: `content_block.get("type")`,
`content_block.get("text", "")`. -/
structure ContentBlock where
  type : Option String := none
  text : Option String := none
  deriving DecidableEq

/-- The `usage` object of a backend result event, read with
`.get("input_tokens", 0)` / `.get("output_tokens", 0)`. -/
structure EventUsage where
  input_tokens : Option Nat := none
  output_tokens : Option Nat := none
  deriving DecidableEq

/-- One parsed line of the backend's stream-json stdout, embedded as the
fields the interpreters read via `chunk.get(...)`; absent keys are `none`
(or the Python default: `is_error` defaults to `False`). -/
structure BackendEvent where
  type : Option String := none
  subtype : Option String := none
  session_id : Option String := none
  is_error : Bool := false
  result : Option String := none
  usage : Option EventUsage := none
  content_blocks : List ContentBlock := []
  deriving DecidableEq

/-- Oracle for one subprocess invocation: exit code, parsed stdout events,
stderr text, and elapsed wall-clock seconds.  The Python code obtains the
first three from `process.communicate()` / `process.stdout.readline()`;
`duration_sec` records how long that took. -/
structure ProcOutcome where
  returncode : Int
  stdout_events : List BackendEvent
  stderr : String
  duration_sec : Nat
  deriving DecidableEq

/-- The failure modes of `complete_chat` in `src/claude_interface.py` (all
raised as `RuntimeError` in Python, distinguished here by their message).
`timeout` is never produced by the code; it exists so that the spec's
TimeoutError is expressible. -/
inductive ClaudeError
  | commandFailed (msg : String)
  | noResult
  | backendError (msg : String)
  | executionFailed (msg : String)
  | timeout
  deriving DecidableEq

/-- Python truthiness of an optional string: `None` and `""` are falsy. -/
def pyTruthy : Option String → Bool
  | none => false
  | some s => if s = "" then false else true

/-- A content block of the translated backend input: text, or an inline
base64 image with a media type (`_convert_content_to_claude_format`). -/
inductive ClaudeBlock
  | text (t : String)
  | image (media_type : String) (data : String)
  deriving DecidableEq

/-- Oracle for `_download_image_as_base64`: maps a remote URL to
`(base64_data, media_type)` or a fetch error. -/
def Fetch : Type := String → Except String (String × String)

/-- Split a string at its first comma, as Python's `split(',', 1)`;
`none` when there is no comma (Python would fail unpacking). -/
def splitFirstComma (s : String) : Option (String × String) :=
  match s.splitOn "," with
  | [] => none
  | [_] => none
  | h :: rest => some (h, String.intercalate "," rest)

/-- `_extract_base64_from_data_url` from `src/claude_interface.py`: parse
`data:<media>;base64,<data>`, require the media type to start with
`image/`, return `(data, media_type)`. -/
def extract_base64_from_data_url (data_url : String) : Except String (String × String) :=
  if data_url.startsWith "data:" then
    match splitFirstComma data_url with
    | none => Except.error "Invalid data URL format"
    | some (header, data) =>
      let media_type_part := ((header.splitOn ";").headD "").replace "data:" ""
      if media_type_part.startsWith "image/" then Except.ok (data, media_type_part)
      else Except.error ("Unsupported media type: " ++ media_type_part)
  else Except.error "Invalid data URL format"

/-- Translate one content item into a backend content block
(the per-item body of `_convert_content_to_claude_format`). -/
def convertItem (fetch : Fetch) : ContentItem → Except String ClaudeBlock
  | ContentItem.text t => Except.ok (ClaudeBlock.text t)
  | ContentItem.image_url url =>
    if url.startsWith "data:" then
      match extract_base64_from_data_url url with
      | Except.ok (d, m) => Except.ok (ClaudeBlock.image m d)
      | Except.error e => Except.error e
    else
      match fetch url with
      | Except.ok (d, m) => Except.ok (ClaudeBlock.image m d)
      | Except.error e => Except.error e

/-- `_convert_content_to_claude_format` from `src/claude_interface.py`:
a plain string becomes one text block; a list is translated item by item
(an image resolution failure aborts the whole translation). -/
def _convert_content_to_claude_format (fetch : Fetch) :
    MsgContent → Except String (List ClaudeBlock)
  | MsgContent.str s => Except.ok [ClaudeBlock.text s]
  | MsgContent.parts items => items.mapM (convertItem fetch)

/-- The translated backend input document built by
`_format_messages_as_json`: optional top-level `system` field and the
single user turn's content blocks. -/
structure UserObj where
  system : Option String := none
  content : List ClaudeBlock
  deriving DecidableEq

/-- The most recent user-role message
(`for message in reversed(messages): if message.role == "user"`). -/
def lastUserMessage (messages : List ChatMessage) : Option ChatMessage :=
  messages.reverse.find? (fun m => m.role == Role.user)

/-- Text extraction for a system message's content: a plain string is used
as is; a list contributes the concatenation of its text parts only
(`_format_messages_as_json`, lines 200-213). -/
def systemTextOf : MsgContent → String
  | MsgContent.str s => s
  | MsgContent.parts items =>
    items.foldl
      (fun acc it =>
        match it with
        | ContentItem.text t => acc ++ t
        | ContentItem.image_url _ => acc) ""

/-- `_format_messages_as_json` from `src/claude_interface.py`.  Returns
`Except.ok none` for the empty-string return taken when no user-role
message exists; otherwise builds the user object from the most recent
user message and, when present, the last system message. -/
def _format_messages_as_json (fetch : Fetch) (messages : List ChatMessage) :
    Except String (Option UserObj) :=
  let system_messages := messages.filter (fun m => m.role == Role.system)
  match lastUserMessage messages with
  | none => Except.ok none
  | some u =>
    match _convert_content_to_claude_format fetch u.content with
    | Except.error e => Except.error e
    | Except.ok claude_content =>
      match system_messages.getLast? with
      | none => Except.ok (some { system := none, content := claude_content })
      | some sm =>
        Except.ok (some { system := some (systemTextOf sm.content), content := claude_content })

/-- One step of the aggregate-mode scan over stdout lines
(`complete_chat`, lines 250-261): state is `(result_data,
claude_session_id)`.  A result event overwrites both; a system/init event
fills the session id only when the current one is falsy. -/
def aggStep (acc : Option BackendEvent × Option String) (e : BackendEvent) :
    Option BackendEvent × Option String :=
  if e.type = some "result" then (some e, e.session_id)
  else if e.type = some "system" ∧ e.subtype = some "init" then
    (if pyTruthy acc.2 then acc else (acc.1, e.session_id))
  else acc

/-- The aggregate-mode scan of the whole event list, starting from
`result_data = None`, `claude_session_id = None`. -/
def aggScan (events : List BackendEvent) : Option BackendEvent × Option String :=
  events.foldl aggStep (none, none)

/-- The successful return of `complete_chat`: the result event's data plus
the resolved `claude_session_id` added for the caller. -/
structure ResultPayload where
  data : BackendEvent
  claude_session_id : Option String
  deriving DecidableEq

/-- `complete_chat` from `src/claude_interface.py` (json-input mode, the
only mode the routes use): translate the messages (a translation failure
surfaces as the catch-all RuntimeError), fail on non-zero exit, scan the
events, fail when no result event was seen or when the result carries
`is_error`, otherwise return the result data and the resolved session id.
The elapsed `duration_sec` is never consulted: `process.communicate()` is
awaited without any timeout. -/
def complete_chat (fetch : Fetch) (messages : List ChatMessage) (proc : ProcOutcome) :
    Except ClaudeError ResultPayload :=
  match _format_messages_as_json fetch messages with
  | Except.error e => Except.error (ClaudeError.executionFailed e)
  | Except.ok _ =>
    if proc.returncode ≠ 0 then Except.error (ClaudeError.commandFailed proc.stderr)
    else
      match aggScan proc.stdout_events with
      | (none, _) => Except.error ClaudeError.noResult
      | (some r, sid) =>
        if r.is_error then Except.error (ClaudeError.backendError (r.result.getD "Unknown error"))
        else Except.ok { data := r, claude_session_id := sid }

/-- `Usage` from `src/models/openai.py`. -/
structure Usage where
  prompt_tokens : Nat
  completion_tokens : Nat
  total_tokens : Nat
  deriving DecidableEq

/-- `ChatCompletionResponseMessage` from `src/models/openai.py`. -/
structure ChatCompletionResponseMessage where
  role : Role
  content : String
  deriving DecidableEq

/-- `ChatCompletionChoice` from `src/models/openai.py`. -/
structure ChatCompletionChoice where
  index : Nat
  message : ChatCompletionResponseMessage
  finish_reason : Option String
  deriving DecidableEq

/-- `ChatCompletionResponse` from `src/models/openai.py` (the constant
`object` discriminator is omitted). -/
structure ChatCompletionResponse where
  id : String
  created : Nat
  model : String
  choices : List ChatCompletionChoice
  usage : Usage
  deriving DecidableEq

/-- `result.get("usage", {}).get("input_tokens", 0)`. -/
def usageInputTokens (r : BackendEvent) : Nat :=
  match r.usage with
  | none => 0
  | some u => u.input_tokens.getD 0

/-- `result.get("usage", {}).get("output_tokens", 0)`. -/
def usageOutputTokens (r : BackendEvent) : Nat :=
  match r.usage with
  | none => 0
  | some u => u.output_tokens.getD 0

/-- The response object built at the end of `complete_chat_with_session`
(`src/routes/openai.py`, lines 124-143) from the backend result event. -/
def buildResponse (response_id : String) (created : Nat) (model : String)
    (r : BackendEvent) : ChatCompletionResponse :=
  { id := response_id
    created := created
    model := model
    choices :=
      [{ index := 0
         message := { role := Role.assistant, content := r.result.getD "" }
         finish_reason := some "stop" }]
    usage :=
      { prompt_tokens := usageInputTokens r
        completion_tokens := usageOutputTokens r
        total_tokens := usageInputTokens r + usageOutputTokens r } }

/-- The session row state the routes mutate: the stored backend session id
(`sessions.claude_session_id` in `src/database.py`) and the appended
`(role, content)` message rows. -/
structure SessionRow where
  claude_session_id : Option String
  messages : List (String × String)
  deriving DecidableEq

/-- Role names as stored in message rows. -/
def roleStr : Role → String
  | Role.system => "system"
  | Role.user => "user"
  | Role.assistant => "assistant"

/-- `content_for_storage` (`src/routes/openai.py`, lines 101-116): plain
strings are stored as is; a content list stores its text parts and an
`[Image]` placeholder per image, or `[Mixed Content]` when that text is
empty. -/
def storageString : MsgContent → String
  | MsgContent.str s => s
  | MsgContent.parts items =>
    let t :=
      items.foldl
        (fun acc it =>
          match it with
          | ContentItem.text s => acc ++ s
          | ContentItem.image_url _ => acc ++ "[Image]") ""
    if t = "" then "[Mixed Content]" else t

/-- The message rows appended for the caller's newly submitted messages. -/
def storedRows (reqMessages : List ChatMessage) : List (String × String) :=
  reqMessages.map (fun m => (roleStr m.role, storageString m.content))

/-- `complete_chat_with_session` from `src/routes/openai.py`: invoke the
backend; on failure propagate the error with the session row untouched;
on success store the resolved backend session id when one was returned
and none was stored, append the caller's messages and the assistant
reply, and build the response.  `response_id` and `created` stand for the
generated uuid and timestamp. -/
def complete_chat_with_session (fetch : Fetch) (response_id : String) (created : Nat)
    (model : String) (row : SessionRow) (reqMessages fullMessages : List ChatMessage)
    (proc : ProcOutcome) : SessionRow × Except ClaudeError ChatCompletionResponse :=
  let claude_session_id := row.claude_session_id
  match complete_chat fetch fullMessages proc with
  | Except.error e => (row, Except.error e)
  | Except.ok payload =>
    let row1 :=
      if pyTruthy payload.claude_session_id && !(pyTruthy claude_session_id) then
        { row with claude_session_id := payload.claude_session_id }
      else row
    let row2 :=
      { row1 with
        messages := row1.messages ++ storedRows reqMessages
          ++ [("assistant", payload.data.result.getD "")] }
    (row2, Except.ok (buildResponse response_id created model payload.data))

/-- One Server-Sent-Events frame yielded by
`stream_chat_completion_with_session`: a text delta chunk, the final
chunk with `finish_reason = "stop"`, the `[DONE]` sentinel, or the
error-shaped frame yielded by the `except` handler. -/
inductive SSEFrame
  | delta (text : String)
  | finishChunk
  | done
  | errorFrame (msg : String)
  deriving DecidableEq

/-- The non-empty texts of the `type = "text"` content blocks of an
assistant event, in order (`src/routes/openai.py`, lines 170-173). -/
def textsOfBlocks (blocks : List ContentBlock) : List String :=
  blocks.filterMap
    (fun b =>
      if b.type = some "text" then
        let t := b.text.getD ""
        if t = "" then none else some t
      else none)

/-- The streaming loop over backend events (`src/routes/openai.py`, lines
161-206), restricted to the frames it yields: each assistant event emits
one delta frame per non-empty text block, in order; the first result
event emits the finish chunk and the `[DONE]` sentinel and breaks.
Returns the frames and whether a result event was seen. -/
def streamFramesLoop : List BackendEvent → List SSEFrame × Bool
  | [] => ([], false)
  | e :: rest =>
    if e.type = some "assistant" then
      let p := streamFramesLoop rest
      ((textsOfBlocks e.content_blocks).map SSEFrame.delta ++ p.1, p.2)
    else if e.type = some "result" then ([SSEFrame.finishChunk, SSEFrame.done], true)
    else streamFramesLoop rest

/-- The backend session id stored by the streaming loop (lines 162-165):
the first event carrying a truthy `session_id` wins, provided nothing was
stored for this session yet (`dbSid` falsy); events after the first
result event are never examined. -/
def streamStoredSid (dbSid : Option String) : List BackendEvent → Option String
  | [] => none
  | e :: rest =>
    if !(pyTruthy dbSid) && pyTruthy e.session_id then e.session_id
    else if e.type = some "result" then none
    else streamStoredSid dbSid rest

/-- The text carried by a delta frame. -/
def deltaText : SSEFrame → Option String
  | SSEFrame.delta t => some t
  | _ => none

/-- The delta texts of a frame list, in emission order. -/
def framesDeltaTexts (frames : List SSEFrame) : List String :=
  frames.filterMap deltaText

/-- The observable outcome of one streaming run: the yielded frames, the
backend session id stored (if any), the accumulated `content_buffer`, and
whether the post-loop persistence of message rows was reached. -/
structure StreamResult where
  frames : List SSEFrame
  stored_sid : Option String
  content_buffer : String
  persisted : Bool
  deriving DecidableEq

/-- The streaming interpretation of one subprocess outcome.  When a result
event occurs the loop breaks (the exit code is never checked) and
persistence runs.  When the events end without a result, `stream_chat`
checks the exit code: non-zero raises, which the route's handler turns
into a single error frame and persistence is skipped; zero falls through
to persistence with no further frames.  `content_buffer` accumulates
exactly the emitted delta texts, in order. -/
def streamRun (dbSid : Option String) (proc : ProcOutcome) : StreamResult :=
  let p := streamFramesLoop proc.stdout_events
  let stored := streamStoredSid dbSid proc.stdout_events
  let buffer := String.join (framesDeltaTexts p.1)
  if p.2 then
    { frames := p.1, stored_sid := stored, content_buffer := buffer, persisted := true }
  else if proc.returncode ≠ 0 then
    { frames := p.1 ++ [SSEFrame.errorFrame proc.stderr], stored_sid := stored
      content_buffer := buffer, persisted := false }
  else
    { frames := p.1, stored_sid := stored, content_buffer := buffer, persisted := true }

/-- `stream_chat_completion_with_session` from `src/routes/openai.py`: a
translation failure inside `stream_chat` surfaces before any chunk and
becomes a single error frame with the row untouched; otherwise the
streaming run yields its frames, the stored backend session id (if any)
is written to the row, and when persistence is reached the caller's
messages and the reassembled buffer are appended. -/
def stream_chat_completion_with_session (fetch : Fetch) (row : SessionRow)
    (reqMessages fullMessages : List ChatMessage) (proc : ProcOutcome) :
    SessionRow × List SSEFrame :=
  let dbSid := row.claude_session_id
  match _format_messages_as_json fetch fullMessages with
  | Except.error e => (row, [SSEFrame.errorFrame e])
  | Except.ok _ =>
    let r := streamRun dbSid proc
    let row1 :=
      match r.stored_sid with
      | some s => { row with claude_session_id := some s }
      | none => row
    let row2 :=
      if r.persisted then
        { row1 with
          messages := row1.messages ++ storedRows reqMessages
            ++ [("assistant", r.content_buffer)] }
      else row1
    (row2, r.frames)

/-! ### Concrete fixtures -/

/-- A fetch oracle with networking disabled: every remote URL fails. -/
def fetchNone : Fetch := fun _ => Except.error "network disabled"

/-- A one-line user message. -/
def userMsgHi : ChatMessage := { role := Role.user, content := MsgContent.str "hi" }

/-- A system message (used in lists with no user message). -/
def sysMsgOnly : ChatMessage := { role := Role.system, content := MsgContent.str "be brief" }

/-- A backend init event carrying a session id. -/
def evInit (sid : String) : BackendEvent :=
  { type := some "system", subtype := some "init", session_id := some sid }

/-- A backend assistant event with one text content block. -/
def evAssistant (t : String) : BackendEvent :=
  { type := some "assistant", content_blocks := [{ type := some "text", text := some t }] }

/-- A well-formed backend result event with usage 1 input / 2 output tokens. -/
def evResult (t : String) : BackendEvent :=
  { type := some "result", result := some t
    usage := some { input_tokens := some 1, output_tokens := some 2 } }

/-- A result event that also carries a session id. -/
def evResultSid (t sid : String) : BackendEvent :=
  { type := some "result", result := some t, session_id := some sid
    usage := some { input_tokens := some 1, output_tokens := some 2 } }

/-- A result event with no `session_id` field. -/
def evResultNoSid : BackendEvent := { type := some "result", result := some "ok" }

/-- An empty, fresh session row. -/
def row0 : SessionRow := { claude_session_id := none, messages := [] }

/-- A plain system message. -/
def sysMsgA : ChatMessage := { role := Role.system, content := MsgContent.str "be nice" }

/-- A system message with mixed content: two text parts around an image. -/
def sysMsgParts : ChatMessage :=
  { role := Role.system
    content := MsgContent.parts
      [ContentItem.text "Be", ContentItem.image_url "http://x/img.png", ContentItem.text " kind"] }

/-- An assistant history message. -/
def asstMsg : ChatMessage := { role := Role.assistant, content := MsgContent.str "prev reply" }

/-- An earlier user message, superseded by `userMsgHi` in the lists below. -/
def userMsgFirst : ChatMessage := { role := Role.user, content := MsgContent.str "first" }

/-! ### Helper lemmas on the aggregate scan -/

/-- No event of the list is a result event. -/
def noResultEvent (es : List BackendEvent) : Prop :=
  ∀ e ∈ es, e.type ≠ some "result"

instance (es : List BackendEvent) : Decidable (noResultEvent es) :=
  inferInstanceAs (Decidable (∀ e ∈ es, e.type ≠ some "result"))

/-- A non-result event never changes the tracked result data. -/
theorem aggStep_fst_of_ne (acc : Option BackendEvent × Option String) (e : BackendEvent)
    (he : e.type ≠ some "result") : (aggStep acc e).1 = acc.1 := by
  unfold aggStep
  rw [if_neg he]
  by_cases hsys : e.type = some "system" ∧ e.subtype = some "init"
  · rw [if_pos hsys]
    by_cases ht : pyTruthy acc.2 = true
    · simp [ht]
    · simp [ht]
  · rw [if_neg hsys]

theorem aggFold_fst_of_noResult :
    ∀ (es : List BackendEvent) (rd : Option BackendEvent) (sid : Option String),
      noResultEvent es → (es.foldl aggStep (rd, sid)).1 = rd
  | [], _, _, _ => rfl
  | e :: rest, rd, sid, h => by
    have he : e.type ≠ some "result" := h e (List.mem_cons_self e rest)
    have hrest : noResultEvent rest := fun x hx => h x (List.mem_cons_of_mem e hx)
    have hstep : (aggStep (rd, sid) e).1 = rd := aggStep_fst_of_ne (rd, sid) e he
    simp only [List.foldl_cons]
    calc (List.foldl aggStep (aggStep (rd, sid) e) rest).1
        = (List.foldl aggStep ((aggStep (rd, sid) e).1, (aggStep (rd, sid) e).2) rest).1 := rfl
      _ = (aggStep (rd, sid) e).1 := aggFold_fst_of_noResult rest _ _ hrest
      _ = rd := hstep

theorem aggFold_fix_of_truthy :
    ∀ (es : List BackendEvent) (rd : Option BackendEvent) (sid : Option String),
      noResultEvent es → pyTruthy sid = true → es.foldl aggStep (rd, sid) = (rd, sid)
  | [], _, _, _, _ => rfl
  | e :: rest, rd, sid, h, ht => by
    have he : e.type ≠ some "result" := h e (List.mem_cons_self e rest)
    have hrest : noResultEvent rest := fun x hx => h x (List.mem_cons_of_mem e hx)
    have hstep : aggStep (rd, sid) e = (rd, sid) := by
      unfold aggStep
      rw [if_neg he]
      by_cases hsys : e.type = some "system" ∧ e.subtype = some "init"
      · rw [if_pos hsys]
        simp [ht]
      · rw [if_neg hsys]
    simp only [List.foldl_cons, hstep]
    exact aggFold_fix_of_truthy rest rd sid hrest ht

/-- A result event overwrites the scan state with itself and its own
`session_id` field, whatever was tracked before. -/
theorem aggStep_result (acc : Option BackendEvent × Option String) (r : BackendEvent)
    (hty : r.type = some "result") : aggStep acc r = (some r, r.session_id) := by
  unfold aggStep
  rw [if_pos hty]

/-- With a result event followed only by non-result events, the scan
settles on that event as the result data. -/
theorem aggScan_single_result (pre post : List BackendEvent) (r : BackendEvent)
    (hpost : noResultEvent post) (hty : r.type = some "result") :
    (aggScan (pre ++ r :: post)).1 = some r := by
  unfold aggScan
  rw [List.foldl_append, List.foldl_cons,
    aggStep_result (List.foldl aggStep (none, none) pre) r hty]
  exact aggFold_fst_of_noResult post (some r) r.session_id hpost

/-- With a result event carrying a truthy `session_id`, followed only by
non-result events, the scan resolves to exactly that session id. -/
theorem aggScan_single_result_sid (pre post : List BackendEvent) (r : BackendEvent)
    (hpost : noResultEvent post) (hty : r.type = some "result")
    (htr : pyTruthy r.session_id = true) :
    aggScan (pre ++ r :: post) = (some r, r.session_id) := by
  unfold aggScan
  rw [List.foldl_append, List.foldl_cons,
    aggStep_result (List.foldl aggStep (none, none) pre) r hty]
  exact aggFold_fix_of_truthy post (some r) r.session_id hpost htr

/-- A stream with no result event leaves the result data unset. -/
theorem aggScan_fst_of_noResult (es : List BackendEvent) (h : noResultEvent es) :
    (aggScan es).1 = none :=
  aggFold_fst_of_noResult es none none h

/-! ### Helper lemmas on the streaming loop -/

/-- Without a result event, the streaming loop never breaks and emits only
delta frames. -/
theorem streamFramesLoop_of_noResult :
    ∀ (es : List BackendEvent), noResultEvent es →
      (streamFramesLoop es).2 = false ∧
        ∀ f ∈ (streamFramesLoop es).1, ∃ t, f = SSEFrame.delta t
  | [], _ => by
    constructor
    · rfl
    · intro f hf
      simp [streamFramesLoop] at hf
  | e :: rest, h => by
    have he : e.type ≠ some "result" := h e (List.mem_cons_self e rest)
    have hrest : noResultEvent rest := fun x hx => h x (List.mem_cons_of_mem e hx)
    have ih := streamFramesLoop_of_noResult rest hrest
    unfold streamFramesLoop
    by_cases ha : e.type = some "assistant"
    · rw [if_pos ha]
      refine ⟨ih.1, ?_⟩
      intro f hf
      rcases List.mem_append.mp hf with hl | hr
      · rcases List.mem_map.mp hl with ⟨t, _, rfl⟩
        exact ⟨t, rfl⟩
      · exact ih.2 f hr
    · rw [if_neg ha, if_neg he]
      exact ih

/-- Once a backend session id is stored for the session, the streaming
loop never stores another one. -/
theorem streamStoredSid_of_truthy_db (dbSid : Option String)
    (ht : pyTruthy dbSid = true) :
    ∀ (es : List BackendEvent), streamStoredSid dbSid es = none
  | [] => rfl
  | e :: rest => by
    unfold streamStoredSid
    rw [ht]
    simp only [Bool.not_true, Bool.false_and, Bool.false_eq_true, if_false]
    by_cases hr : e.type = some "result"
    · rw [if_pos hr]
    · rw [if_neg hr]
      exact streamStoredSid_of_truthy_db dbSid ht rest

/-- When the loop's first event carries a truthy session id and nothing is
stored yet, that first id is the one stored. -/
theorem streamStoredSid_first (dbSid : Option String) (e : BackendEvent)
    (rest : List BackendEvent) (hdb : pyTruthy dbSid = false)
    (he : pyTruthy e.session_id = true) :
    streamStoredSid dbSid (e :: rest) = e.session_id := by
  unfold streamStoredSid
  rw [hdb, he]
  simp

/-! ### Helper lemmas on `complete_chat` -/

/-- A well-formed invocation (translation succeeds, exit code zero, a
result event with `is_error = false` followed only by non-result events)
returns that result event together with the scan's resolved session id. -/
theorem complete_chat_ok (fetch : Fetch) (messages : List ChatMessage)
    (proc : ProcOutcome) (fo : Option UserObj)
    (pre post : List BackendEvent) (r : BackendEvent)
    (hfmt : _format_messages_as_json fetch messages = Except.ok fo)
    (hrc : proc.returncode = 0)
    (hev : proc.stdout_events = pre ++ r :: post)
    (hpost : noResultEvent post)
    (hty : r.type = some "result") (herr : r.is_error = false) :
    complete_chat fetch messages proc =
      Except.ok { data := r, claude_session_id := (aggScan proc.stdout_events).2 } := by
  unfold complete_chat
  rw [hfmt]
  simp only [hrc]
  norm_num
  have hfst : (aggScan proc.stdout_events).1 = some r := by
    rw [hev]
    exact aggScan_single_result pre post r hpost hty
  have hpair : aggScan proc.stdout_events =
      ((aggScan proc.stdout_events).1, (aggScan proc.stdout_events).2) := rfl
  rw [hpair, hfst]
  simp [herr]

/-- Route-level consequence: a well-formed invocation produces exactly the
response built from the result event. -/
theorem complete_with_session_ok (fetch : Fetch) (response_id : String) (created : Nat)
    (model : String) (row : SessionRow) (reqMessages fullMessages : List ChatMessage)
    (proc : ProcOutcome) (fo : Option UserObj)
    (pre post : List BackendEvent) (r : BackendEvent)
    (hfmt : _format_messages_as_json fetch fullMessages = Except.ok fo)
    (hrc : proc.returncode = 0)
    (hev : proc.stdout_events = pre ++ r :: post)
    (hpost : noResultEvent post)
    (hty : r.type = some "result") (herr : r.is_error = false) :
    (complete_chat_with_session fetch response_id created model row reqMessages
        fullMessages proc).2 = Except.ok (buildResponse response_id created model r) := by
  unfold complete_chat_with_session
  rw [complete_chat_ok fetch fullMessages proc fo pre post r hfmt hrc hev hpost hty herr]

/-- The stored session id of a streaming run is the loop's stored id,
whatever the termination branch. -/
theorem streamRun_stored (dbSid : Option String) (proc : ProcOutcome) :
    (streamRun dbSid proc).stored_sid = streamStoredSid dbSid proc.stdout_events := by
  unfold streamRun
  by_cases h1 : (streamFramesLoop proc.stdout_events).2 = true
  · simp [h1]
  · by_cases h2 : proc.returncode ≠ 0
    · simp [h1, h2]
    · simp [h1, h2]

/-- The content buffer of a streaming run is the concatenation, in
emission order, of the delta texts of its frames, whatever the
termination branch. -/
theorem streamRun_buffer (dbSid : Option String) (proc : ProcOutcome) :
    (streamRun dbSid proc).content_buffer
      = String.join (framesDeltaTexts (streamFramesLoop proc.stdout_events).1) := by
  unfold streamRun
  by_cases h1 : (streamFramesLoop proc.stdout_events).2 = true
  · simp [h1]
  · by_cases h2 : proc.returncode ≠ 0
    · simp [h1, h2]
    · simp [h1, h2]

/-! ### Claim theorems -/

/-- C1: for every well-formed backend event sequence containing a single
result event, aggregate-mode chat completion returns a response whose
`choices[0].message.content` equals the result event's `result` field
exactly, and whose `usage.total_tokens` equals the result event's
`usage.input_tokens` plus `usage.output_tokens`. -/
theorem aggregate_response_from_single_result (fetch : Fetch) (response_id : String)
    (created : Nat) (model : String) (row : SessionRow)
    (reqMessages fullMessages : List ChatMessage) (proc : ProcOutcome) (fo : Option UserObj)
    (pre post : List BackendEvent) (r : BackendEvent) (s : String) (i o : Nat)
    (hfmt : _format_messages_as_json fetch fullMessages = Except.ok fo)
    (hrc : proc.returncode = 0)
    (hev : proc.stdout_events = pre ++ r :: post)
    (_hpre : noResultEvent pre) (hpost : noResultEvent post)
    (hty : r.type = some "result") (herr : r.is_error = false)
    (hres : r.result = some s)
    (husage : r.usage = some { input_tokens := some i, output_tokens := some o }) :
    (complete_chat_with_session fetch response_id created model row reqMessages
        fullMessages proc).2 = Except.ok (buildResponse response_id created model r)
    ∧ (buildResponse response_id created model r).choices.map
        (fun c => c.message.content) = [s]
    ∧ (buildResponse response_id created model r).usage.total_tokens = i + o := by
  refine ⟨complete_with_session_ok fetch response_id created model row reqMessages
    fullMessages proc fo pre post r hfmt hrc hev hpost hty herr, ?_, ?_⟩
  · simp [buildResponse, hres]
  · simp [buildResponse, usageInputTokens, usageOutputTokens, husage]

/-- Witness for C1 at a concrete single-result event stream. -/
theorem aggregate_response_from_single_result_witness :
    (complete_chat_with_session fetchNone "id" 0 "m" row0 [] [userMsgHi]
        { returncode := 0, stdout_events := [evInit "s1", evResult "Hi Alice"]
          stderr := "", duration_sec := 0 }).2
      = Except.ok (buildResponse "id" 0 "m" (evResult "Hi Alice"))
    ∧ (buildResponse "id" 0 "m" (evResult "Hi Alice")).choices.map
        (fun c => c.message.content) = ["Hi Alice"]
    ∧ (buildResponse "id" 0 "m" (evResult "Hi Alice")).usage.total_tokens = 1 + 2 :=
  aggregate_response_from_single_result fetchNone "id" 0 "m" row0 [] [userMsgHi]
    { returncode := 0, stdout_events := [evInit "s1", evResult "Hi Alice"]
      stderr := "", duration_sec := 0 }
    (some { system := none, content := [ClaudeBlock.text "hi"] })
    [evInit "s1"] [] (evResult "Hi Alice") "Hi Alice" 1 2
    rfl rfl rfl (by decide) (by decide) rfl rfl rfl rfl

/-- C4 counterexample: with a message list containing no user-role message,
input translation returns the empty payload without raising any
ConfigurationError-like failure, and the backend invocation still
proceeds and completes normally — contradicting the claim that
translation fails and no backend invocation is performed. -/
theorem no_user_translation_counterexample :
    _format_messages_as_json fetchNone [sysMsgOnly] = Except.ok none
    ∧ complete_chat fetchNone [sysMsgOnly]
        { returncode := 0, stdout_events := [evResult "ok"], stderr := "", duration_sec := 0 }
      = Except.ok { data := evResult "ok", claude_session_id := none } :=
  ⟨rfl, rfl⟩

/-- C4 amended: for every message list with no user-role message, input
translation returns an empty payload and no error; the subprocess is
still invoked, and a successful backend outcome completes the request
normally. -/
theorem no_user_message_empty_translation (fetch : Fetch)
    (messages : List ChatMessage) (proc : ProcOutcome)
    (pre post : List BackendEvent) (r : BackendEvent)
    (hnou : ∀ m ∈ messages, m.role ≠ Role.user)
    (hrc : proc.returncode = 0)
    (hev : proc.stdout_events = pre ++ r :: post)
    (hpost : noResultEvent post)
    (hty : r.type = some "result") (herr : r.is_error = false) :
    _format_messages_as_json fetch messages = Except.ok none
    ∧ complete_chat fetch messages proc
      = Except.ok { data := r, claude_session_id := (aggScan proc.stdout_events).2 } := by
  have hlu : lastUserMessage messages = none := by
    unfold lastUserMessage
    rw [List.find?_eq_none]
    intro x hx
    have := hnou x (List.mem_reverse.mp hx)
    simp [this]
  have hfmt : _format_messages_as_json fetch messages = Except.ok none := by
    unfold _format_messages_as_json
    simp [hlu]
  exact ⟨hfmt, complete_chat_ok fetch messages proc none pre post r hfmt hrc hev hpost hty herr⟩

/-- Witness for the amended C4 at a concrete system-only message list. -/
theorem no_user_message_empty_translation_witness :
    _format_messages_as_json fetchNone [sysMsgOnly] = Except.ok none
    ∧ complete_chat fetchNone [sysMsgOnly]
        { returncode := 0, stdout_events := [evResult "done"], stderr := "", duration_sec := 0 }
      = Except.ok { data := evResult "done"
                    claude_session_id := (aggScan [evResult "done"]).2 } :=
  no_user_message_empty_translation fetchNone [sysMsgOnly]
    { returncode := 0, stdout_events := [evResult "done"], stderr := "", duration_sec := 0 }
    [] [] (evResult "done") (by decide) rfl rfl (by decide) rfl rfl

/-- C5 counterexample: an invocation that took 3600 wall-clock seconds —
far beyond any 30-second budget — still completes normally; no
TimeoutError is raised, contradicting the claim. -/
theorem blocking_no_timeout_counterexample :
    (3600 : Nat) > 30
    ∧ complete_chat fetchNone [userMsgHi]
        { returncode := 0, stdout_events := [evResult "ok"], stderr := "", duration_sec := 3600 }
      = Except.ok { data := evResult "ok", claude_session_id := none }
    ∧ complete_chat fetchNone [userMsgHi]
        { returncode := 0, stdout_events := [evResult "ok"], stderr := "", duration_sec := 3600 }
      ≠ Except.error ClaudeError.timeout := by
  refine ⟨by norm_num, rfl, ?_⟩
  intro h
  rw [show complete_chat fetchNone [userMsgHi]
      { returncode := 0, stdout_events := [evResult "ok"], stderr := "", duration_sec := 3600 }
      = Except.ok { data := evResult "ok", claude_session_id := none } from rfl] at h
  exact Except.noConfusion h

/-- C5 amended: blocking (non-streaming) mode imposes no wall-clock budget
at all: the outcome of `complete_chat` is independent of the elapsed
duration, and no invocation ever fails with a timeout error. -/
theorem blocking_mode_has_no_timeout (fetch : Fetch) (messages : List ChatMessage)
    (rc : Int) (events : List BackendEvent) (errText : String) (d1 d2 : Nat) :
    complete_chat fetch messages
        { returncode := rc, stdout_events := events, stderr := errText, duration_sec := d1 }
      = complete_chat fetch messages
        { returncode := rc, stdout_events := events, stderr := errText, duration_sec := d2 }
    ∧ ∀ proc : ProcOutcome,
        complete_chat fetch messages proc ≠ Except.error ClaudeError.timeout := by
  refine ⟨rfl, ?_⟩
  intro proc h
  unfold complete_chat at h
  split at h
  · simp at h
  · split at h
    · simp at h
    · split at h
      · simp at h
      · split at h
        · simp at h
        · simp at h

/-- Witness for the amended C5 at concrete durations and a concrete
invocation. -/
theorem blocking_mode_has_no_timeout_witness :
    complete_chat fetchNone [userMsgHi]
        { returncode := 0, stdout_events := [evResult "ok"], stderr := "", duration_sec := 31 }
      = complete_chat fetchNone [userMsgHi]
        { returncode := 0, stdout_events := [evResult "ok"], stderr := "", duration_sec := 9999 }
    ∧ ∀ proc : ProcOutcome,
        complete_chat fetchNone [userMsgHi] proc ≠ Except.error ClaudeError.timeout :=
  blocking_mode_has_no_timeout fetchNone [userMsgHi] 0 [evResult "ok"] "" 31 9999

/-- C10: in the non-streaming path, when the backend invocation fails, the
session row is returned untouched — no message rows are appended and the
stored backend session id is unchanged. -/
theorem no_persistence_on_backend_failure (fetch : Fetch) (response_id : String)
    (created : Nat) (model : String) (row : SessionRow)
    (reqMessages fullMessages : List ChatMessage) (proc : ProcOutcome) (e : ClaudeError)
    (h : complete_chat fetch fullMessages proc = Except.error e) :
    complete_chat_with_session fetch response_id created model row reqMessages
        fullMessages proc = (row, Except.error e) := by
  unfold complete_chat_with_session
  rw [h]

/-- Witness for C10 at a concrete failing invocation (non-zero exit). -/
theorem no_persistence_on_backend_failure_witness :
    complete_chat_with_session fetchNone "id" 0 "m" row0 [userMsgHi] [userMsgHi]
        { returncode := 1, stdout_events := [], stderr := "boom", duration_sec := 0 }
      = (row0, Except.error (ClaudeError.commandFailed "boom")) :=
  no_persistence_on_backend_failure fetchNone "id" 0 "m" row0 [userMsgHi] [userMsgHi]
    { returncode := 1, stdout_events := [], stderr := "boom", duration_sec := 0 }
    (ClaudeError.commandFailed "boom") rfl

/-- C2 counterexample: for the event sequence `[assistant "A", result "B"]`,
streaming emits deltas concatenating to `"A"` while aggregate mode
produces the final text `"B"`: the two interpretation modes disagree on
a sequence whose result field differs from the emitted deltas. -/
theorem streaming_aggregate_divergence :
    (streamRun none
        { returncode := 0, stdout_events := [evAssistant "A", evResult "B"]
          stderr := "", duration_sec := 0 }).content_buffer = "A"
    ∧ (complete_chat_with_session fetchNone "id" 0 "m" row0 [] [userMsgHi]
        { returncode := 0, stdout_events := [evAssistant "A", evResult "B"]
          stderr := "", duration_sec := 0 }).2
      = Except.ok (buildResponse "id" 0 "m" (evResult "B"))
    ∧ (buildResponse "id" 0 "m" (evResult "B")).choices.map
        (fun c => c.message.content) = ["B"]
    ∧ ("A" : String) ≠ "B" := by
  refine ⟨rfl, rfl, rfl, by decide⟩

/-- C2 amended: the consistency law holds exactly when the result event's
result field equals the concatenation of the emitted streaming deltas:
under that hypothesis, the aggregate-mode response content equals the
streaming content buffer (and in general aggregate mode returns the
result field while streaming returns the concatenated assistant texts,
which may differ). -/
theorem streaming_aggregate_consistency (fetch : Fetch) (response_id : String)
    (created : Nat) (model : String) (row : SessionRow)
    (reqMessages fullMessages : List ChatMessage) (proc : ProcOutcome) (fo : Option UserObj)
    (pre post : List BackendEvent) (r : BackendEvent) (dbSid : Option String)
    (hfmt : _format_messages_as_json fetch fullMessages = Except.ok fo)
    (hrc : proc.returncode = 0)
    (hev : proc.stdout_events = pre ++ r :: post)
    (hpost : noResultEvent post)
    (hty : r.type = some "result") (herr : r.is_error = false)
    (hres : r.result = some ((streamRun dbSid proc).content_buffer)) :
    (complete_chat_with_session fetch response_id created model row reqMessages
        fullMessages proc).2 = Except.ok (buildResponse response_id created model r)
    ∧ (buildResponse response_id created model r).choices.map
        (fun c => c.message.content) = [(streamRun dbSid proc).content_buffer] := by
  refine ⟨complete_with_session_ok fetch response_id created model row reqMessages
    fullMessages proc fo pre post r hfmt hrc hev hpost hty herr, ?_⟩
  simp [buildResponse, hres]

/-- Witness for the amended C2: an event sequence whose result field equals
the concatenation of the assistant deltas. -/
theorem streaming_aggregate_consistency_witness :
    (complete_chat_with_session fetchNone "id" 0 "m" row0 [] [userMsgHi]
        { returncode := 0, stdout_events := [evAssistant "A", evResult "A"]
          stderr := "", duration_sec := 0 }).2
      = Except.ok (buildResponse "id" 0 "m" (evResult "A"))
    ∧ (buildResponse "id" 0 "m" (evResult "A")).choices.map
        (fun c => c.message.content)
      = [(streamRun none
            { returncode := 0, stdout_events := [evAssistant "A", evResult "A"]
              stderr := "", duration_sec := 0 }).content_buffer] :=
  streaming_aggregate_consistency fetchNone "id" 0 "m" row0 [] [userMsgHi]
    { returncode := 0, stdout_events := [evAssistant "A", evResult "A"]
      stderr := "", duration_sec := 0 }
    (some { system := none, content := [ClaudeBlock.text "hi"] })
    [evAssistant "A"] [] (evResult "A") none
    rfl rfl rfl (by decide) rfl rfl rfl

/-- C3 counterexample: streaming a sequence with zero result events and
exit code 0 yields no frames at all — in particular no error-shaped
frame — and the post-stream persistence still runs; streaming-mode
interpretation does not fail, contradicting the claim for that mode. -/
theorem streaming_no_result_no_error_counterexample :
    streamRun none
        { returncode := 0, stdout_events := [evInit "s1"], stderr := "", duration_sec := 0 }
      = { frames := [], stored_sid := some "s1", content_buffer := "", persisted := true } :=
  rfl

/-- C3 amended: with zero result events, aggregate mode fails with the
"no result found" error; streaming mode (exit code zero) does not fail:
it emits no error frame and no end-of-stream sentinel, and still reaches
persistence. -/
theorem no_result_event_behavior (fetch : Fetch) (messages : List ChatMessage)
    (proc : ProcOutcome) (fo : Option UserObj) (dbSid : Option String)
    (hfmt : _format_messages_as_json fetch messages = Except.ok fo)
    (hrc : proc.returncode = 0)
    (h : noResultEvent proc.stdout_events) :
    complete_chat fetch messages proc = Except.error ClaudeError.noResult
    ∧ (∀ m, SSEFrame.errorFrame m ∉ (streamRun dbSid proc).frames)
    ∧ SSEFrame.done ∉ (streamRun dbSid proc).frames
    ∧ (streamRun dbSid proc).persisted = true := by
  have hl := streamFramesLoop_of_noResult proc.stdout_events h
  have hframes : (streamRun dbSid proc).frames = (streamFramesLoop proc.stdout_events).1 := by
    unfold streamRun
    simp [hl.1, hrc]
  have hpers : (streamRun dbSid proc).persisted = true := by
    unfold streamRun
    simp [hl.1, hrc]
  refine ⟨?_, ?_, ?_, hpers⟩
  · unfold complete_chat
    rw [hfmt]
    simp only [hrc]
    norm_num
    have hfst : (aggScan proc.stdout_events).1 = none := aggScan_fst_of_noResult _ h
    have hpair : aggScan proc.stdout_events =
        ((aggScan proc.stdout_events).1, (aggScan proc.stdout_events).2) := rfl
    rw [hpair, hfst]
  · intro m hm
    rw [hframes] at hm
    obtain ⟨t, htm⟩ := hl.2 _ hm
    exact SSEFrame.noConfusion htm
  · intro hm
    rw [hframes] at hm
    obtain ⟨t, htm⟩ := hl.2 _ hm
    exact SSEFrame.noConfusion htm

/-- Witness for the amended C3 at a concrete init-only event stream. -/
theorem no_result_event_behavior_witness :
    complete_chat fetchNone [userMsgHi]
        { returncode := 0, stdout_events := [evInit "s1"], stderr := "", duration_sec := 0 }
      = Except.error ClaudeError.noResult
    ∧ (∀ m, SSEFrame.errorFrame m ∉ (streamRun none
        { returncode := 0, stdout_events := [evInit "s1"], stderr := "", duration_sec := 0 }).frames)
    ∧ SSEFrame.done ∉ (streamRun none
        { returncode := 0, stdout_events := [evInit "s1"], stderr := "", duration_sec := 0 }).frames
    ∧ (streamRun none
        { returncode := 0, stdout_events := [evInit "s1"], stderr := "", duration_sec := 0 }).persisted
      = true :=
  no_result_event_behavior fetchNone [userMsgHi]
    { returncode := 0, stdout_events := [evInit "s1"], stderr := "", duration_sec := 0 }
    (some { system := none, content := [ClaudeBlock.text "hi"] }) none
    rfl rfl (by decide)

/-- C6 counterexample: in aggregate mode, an init fallback `"F"` followed
by a result event lacking a session id resolves to `none` rather than
the fallback `"F"`; in streaming mode, the init event's id `"A"` is
stored and the result event's differing id `"B"` does not override it.
Both halves contradict the claimed resolution rule. -/
theorem session_resolution_counterexample :
    complete_chat fetchNone [userMsgHi]
        { returncode := 0, stdout_events := [evInit "F", evResultNoSid]
          stderr := "", duration_sec := 0 }
      = Except.ok { data := evResultNoSid, claude_session_id := none }
    ∧ (none : Option String) ≠ some "F"
    ∧ streamStoredSid none [evInit "A", evResultSid "ok" "B"] = some "A"
    ∧ (some "A" : Option String) ≠ some "B" := by
  refine ⟨rfl, by decide, rfl, by decide⟩

/-- C6 amended: in aggregate mode the last result event's `session_id`
field replaces the tracked id unconditionally — when truthy it wins over
any init fallback, but a result event without a session id clobbers the
fallback to `none`; in streaming mode the first event carrying a truthy
session id wins and a later result event's id does not override it. -/
theorem session_token_resolution (pre post pre2 : List BackendEvent)
    (r r2 e : BackendEvent) (rest : List BackendEvent) (dbSid : Option String)
    (hpost : noResultEvent post) (hty : r.type = some "result")
    (htr : pyTruthy r.session_id = true)
    (hty2 : r2.type = some "result") (hsid2 : r2.session_id = none)
    (hdb : pyTruthy dbSid = false) (he : pyTruthy e.session_id = true) :
    (aggScan (pre ++ r :: post)).2 = r.session_id
    ∧ (aggScan (pre2 ++ [r2])).2 = none
    ∧ streamStoredSid dbSid (e :: rest) = e.session_id := by
  refine ⟨?_, ?_, streamStoredSid_first dbSid e rest hdb he⟩
  · rw [aggScan_single_result_sid pre post r hpost hty htr]
  · unfold aggScan
    rw [List.foldl_append]
    simp only [List.foldl_cons, List.foldl_nil]
    rw [aggStep_result _ r2 hty2]
    exact hsid2

/-- Witness for the amended C6 at concrete event sequences. -/
theorem session_token_resolution_witness :
    (aggScan ([evInit "X"] ++ evResultSid "ok" "B" :: [])).2 = (evResultSid "ok" "B").session_id
    ∧ (aggScan ([evInit "F"] ++ [evResultNoSid])).2 = none
    ∧ streamStoredSid none (evInit "A" :: [evResultSid "ok" "B"]) = (evInit "A").session_id :=
  session_token_resolution [evInit "X"] [] [evInit "F"]
    (evResultSid "ok" "B") evResultNoSid (evInit "A") [evResultSid "ok" "B"] none
    (by decide) rfl (by decide) rfl rfl rfl (by decide)

/-- C7: once a session's backend session id has been stored by a first
successful turn, processing any later turn — in either mode, whatever
session token the backend returns — leaves the stored id unchanged. -/
theorem backend_session_first_write_wins (fetch : Fetch) (response_id : String)
    (created : Nat) (model : String) (row : SessionRow)
    (reqMessages fullMessages : List ChatMessage) (proc : ProcOutcome) (s : String)
    (hset : row.claude_session_id = some s) (hne : s ≠ "") :
    (complete_chat_with_session fetch response_id created model row reqMessages
        fullMessages proc).1.claude_session_id = some s
    ∧ (stream_chat_completion_with_session fetch row reqMessages fullMessages
        proc).1.claude_session_id = some s := by
  have hts : pyTruthy (some s) = true := by
    simp [pyTruthy, hne]
  constructor
  · unfold complete_chat_with_session
    rcases hcc : complete_chat fetch fullMessages proc with e | payload <;>
      simp [hcc, hset, hts]
  · unfold stream_chat_completion_with_session
    rcases hf : _format_messages_as_json fetch fullMessages with e | fo
    · simp [hf, hset]
    · have hrs : (streamRun (some s) proc).stored_sid = none := by
        rw [streamRun_stored]
        exact streamStoredSid_of_truthy_db (some s) hts proc.stdout_events
      by_cases hp : (streamRun (some s) proc).persisted = true
      · simp [hf, hset, hrs, hp]
      · simp [hf, hset, hrs, hp]

/-- Witness for C7: a second turn whose backend response carries a
different session token leaves the stored id unchanged in both modes. -/
theorem backend_session_first_write_wins_witness :
    (complete_chat_with_session fetchNone "id" 0 "m"
        { claude_session_id := some "first", messages := [] } [userMsgHi] [userMsgHi]
        { returncode := 0, stdout_events := [evInit "other", evResultSid "ok" "other"]
          stderr := "", duration_sec := 0 }).1.claude_session_id = some "first"
    ∧ (stream_chat_completion_with_session fetchNone
        { claude_session_id := some "first", messages := [] } [userMsgHi] [userMsgHi]
        { returncode := 0, stdout_events := [evInit "other", evResultSid "ok" "other"]
          stderr := "", duration_sec := 0 }).1.claude_session_id = some "first" :=
  backend_session_first_write_wins fetchNone "id" 0 "m"
    { claude_session_id := some "first", messages := [] } [userMsgHi] [userMsgHi]
    { returncode := 0, stdout_events := [evInit "other", evResultSid "ok" "other"]
      stderr := "", duration_sec := 0 }
    "first" rfl (by decide)

/-- C8: for every message list with a translatable user turn and at least
one system message, the translated backend input's top-level system
field equals the text content of the most recent system message — text
parts only, concatenated — and is therefore a function of that message
alone, carrying no text from any user or assistant message. -/
theorem system_field_from_last_system_message (fetch : Fetch)
    (messages : List ChatMessage) (u sm : ChatMessage) (blocks : List ClaudeBlock)
    (hu : lastUserMessage messages = some u)
    (hconv : _convert_content_to_claude_format fetch u.content = Except.ok blocks)
    (hsm : (messages.filter (fun m => m.role == Role.system)).getLast? = some sm) :
    _format_messages_as_json fetch messages
      = Except.ok (some { system := some (systemTextOf sm.content), content := blocks }) := by
  unfold _format_messages_as_json
  simp [hu, hconv, hsm]

/-- Witness for C8: a multi-message list whose most recent system message
has mixed content; the system field is its text parts concatenated. -/
theorem system_field_from_last_system_message_witness :
    _format_messages_as_json fetchNone [sysMsgA, userMsgFirst, asstMsg, sysMsgParts, userMsgHi]
      = Except.ok (some { system := some (systemTextOf sysMsgParts.content)
                          content := [ClaudeBlock.text "hi"] }) :=
  system_field_from_last_system_message fetchNone
    [sysMsgA, userMsgFirst, asstMsg, sysMsgParts, userMsgHi]
    userMsgHi sysMsgParts [ClaudeBlock.text "hi"] rfl rfl rfl

/-- C9: the translated backend input's message content is derived solely
from the most recent user-role message: it equals the conversion of that
message's content, with no contribution from any earlier message. -/
theorem content_blocks_from_latest_user_only (fetch : Fetch)
    (messages : List ChatMessage) (u : ChatMessage) (blocks : List ClaudeBlock)
    (hu : lastUserMessage messages = some u)
    (hconv : _convert_content_to_claude_format fetch u.content = Except.ok blocks) :
    ∃ obj : UserObj, _format_messages_as_json fetch messages = Except.ok (some obj)
      ∧ obj.content = blocks := by
  unfold _format_messages_as_json
  rcases hsm : (messages.filter (fun m => m.role == Role.system)).getLast? with _ | sm
  · exact ⟨{ system := none, content := blocks }, by simp [hu, hconv, hsm], rfl⟩
  · exact ⟨{ system := some (systemTextOf sm.content), content := blocks },
      by simp [hu, hconv, hsm], rfl⟩

/-- Witness for C9: with two user messages and assistant history, only the
most recent user message's content is translated. -/
theorem content_blocks_from_latest_user_only_witness :
    ∃ obj : UserObj,
      _format_messages_as_json fetchNone [userMsgFirst, asstMsg, userMsgHi]
        = Except.ok (some obj)
      ∧ obj.content = [ClaudeBlock.text "hi"] :=
  content_blocks_from_latest_user_only fetchNone [userMsgFirst, asstMsg, userMsgHi]
    userMsgHi [ClaudeBlock.text "hi"] rfl rfl

end ClaudeCodeApi
